import Mathlib

/-!
Verification development for the GTFS data-access layer (`GTFSProcessor` in
`utils/gtfs_utils.py`) and the two synthetic-demand scripts
(`src/generate_synthetic_demand.py`, `src/simulate_demand.py`).

Tables are modelled after pandas DataFrames: a cell value is a string, an
integer or a null (NaN); a row is an association list from column names to
values; a DataFrame carries its column list and its row list.  Operations that
can raise in pandas (column access on a frame lacking the column) return
`Except String`.  The processor state is the `gtfs_data` dictionary: an
association list from table names to DataFrames.
-/

namespace GTFSModel

/-- A pandas cell value: string, integer, or NaN/null. -/
inductive Val where
  | vstr : String → Val
  | vint : Int → Val
  | vnull : Val
deriving DecidableEq, Repr

/-- One DataFrame row: association list column-name ↦ value. -/
abbrev Row := List (String × Val)

/-- Cell lookup with a default, modelling `Series.get(key, default)`. -/
def Row.getDefault (r : Row) (c : String) (d : Val) : Val :=
  match r.find? (fun p => p.1 == c) with
  | some p => p.2
  | none => d

/-- Cell lookup modelling `series[key]`: raises a KeyError when absent. -/
def Row.item (r : Row) (c : String) : Except String Val :=
  match r.find? (fun p => p.1 == c) with
  | some p => Except.ok p.2
  | none => Except.error ("KeyError: " ++ c)

/-- Cell lookup defaulting to NaN (a cell of a column known to exist). -/
def Row.cell (r : Row) (c : String) : Val :=
  r.getDefault c Val.vnull

/-- A pandas DataFrame: named columns and a list of rows. -/
structure DF where
  cols : List String
  rows : List Row
deriving DecidableEq, Repr

/-- `pd.DataFrame()`: no columns, no rows. -/
def DF.emptyDF : DF := ⟨[], []⟩

/-- `df.empty` (for our frames: no rows). -/
def DF.isEmptyDF (df : DF) : Bool := df.rows.isEmpty

/-- `df[c]` as a list of cell values; KeyError when the column is absent. -/
def DF.colVals (df : DF) (c : String) : Except String (List Val) :=
  if df.cols.contains c then Except.ok (df.rows.map (fun r => r.cell c))
  else Except.error ("KeyError: " ++ c)

/-- `df[df[c] == v]`; KeyError when the column is absent. -/
def DF.filterEq (df : DF) (c : String) (v : Val) : Except String DF :=
  if df.cols.contains c then
    Except.ok ⟨df.cols, df.rows.filter (fun r => r.cell c == v)⟩
  else Except.error ("KeyError: " ++ c)

/-- `df[df[c].isin(vs)]`; KeyError when the column is absent. -/
def DF.filterIsin (df : DF) (c : String) (vs : List Val) : Except String DF :=
  if df.cols.contains c then
    Except.ok ⟨df.cols, df.rows.filter (fun r => vs.contains (r.cell c))⟩
  else Except.error ("KeyError: " ++ c)

/-- `Series.unique()`: deduplicate preserving first occurrence. -/
def dedupFirstAux (seen : List Val) : List Val → List Val
  | [] => []
  | a :: l =>
      if seen.contains a then dedupFirstAux seen l
      else a :: dedupFirstAux (a :: seen) l

def dedupFirst (l : List Val) : List Val := dedupFirstAux [] l

/-- The processor state `self.gtfs_data`: table name ↦ DataFrame.
A name absent from the list models a table that was never loaded. -/
abbrev GTFS := List (String × DF)

/-- `self.gtfs_data.get(name, pd.DataFrame())`. -/
def GTFS.table (g : GTFS) (name : String) : DF :=
  match g.find? (fun p => p.1 == name) with
  | some p => p.2
  | none => DF.emptyDF

/-- `name in self.gtfs_data`. -/
def GTFS.hasTable (g : GTFS) (name : String) : Bool :=
  (g.find? (fun p => p.1 == name)).isSome

/-- Python truthiness of an `Optional[str]` argument:
`None` and `""` are falsy. -/
def optTruthy : Option String → Bool
  | none => false
  | some s => !s.isEmpty

/-- Python truthiness of a cell value (`""` and `0` falsy; NaN truthy). -/
def valTruthy : Val → Bool
  | Val.vstr s => !s.isEmpty
  | Val.vint n => !(n == 0)
  | Val.vnull => true

/-- `GTFSProcessor.get_routes`. -/
def get_routes (g : GTFS) : DF := g.table "routes"

/-- `GTFSProcessor.get_stops`. -/
def get_stops (g : GTFS) : DF := g.table "stops"

/-- Common shape of the filtered accessors on an arbitrary cell value:
`if param and not table.empty: table = table[table[col] == param]`. -/
def filteredTableV (t : DF) (col : String) (param : Option Val) :
    Except String DF :=
  match param with
  | none => Except.ok t
  | some v =>
      if !valTruthy v || t.isEmptyDF then Except.ok t
      else t.filterEq col v

/-- The filtered accessors all take an `Optional[str]` parameter. -/
def filteredTable (t : DF) (col : String) (param : Option String) :
    Except String DF :=
  filteredTableV t col (param.map Val.vstr)

/-- `GTFSProcessor.get_trips`. -/
def get_trips (g : GTFS) (route_id : Option String) : Except String DF :=
  filteredTable (g.table "trips") "route_id" route_id

/-- `GTFSProcessor.get_stop_times`. -/
def get_stop_times (g : GTFS) (trip_id : Option String) : Except String DF :=
  filteredTable (g.table "stop_times") "trip_id" trip_id

/-- `GTFSProcessor.get_shapes`. -/
def get_shapes (g : GTFS) (shape_id : Option String) : Except String DF :=
  filteredTable (g.table "shapes") "shape_id" shape_id

/-- `GTFSProcessor.get_calendar`. -/
def get_calendar (g : GTFS) (service_id : Option String) : Except String DF :=
  filteredTable (g.table "calendar") "service_id" service_id

/-- `GTFSProcessor.get_frequencies`. -/
def get_frequencies (g : GTFS) (trip_id : Option String) : Except String DF :=
  filteredTable (g.table "frequencies") "trip_id" trip_id

/-- `GTFSProcessor.get_transfers`: two successive optional filters. -/
def get_transfers (g : GTFS) (from_stop_id to_stop_id : Option String) :
    Except String DF := do
  let t ← filteredTable (g.table "transfers") "from_stop_id" from_stop_id
  filteredTable t "to_stop_id" to_stop_id

/-- `GTFSProcessor.get_route_stops`: trips for the route → stop_times for
those trip ids → stops for those stop ids, with the source's short-circuit
returns on empty intermediate results. -/
def get_route_stops (g : GTFS) (route_id : String) : Except String DF := do
  let trips ← get_trips g (some route_id)
  if trips.isEmptyDF then return DF.emptyDF
  else
    let tripIdsRaw ← trips.colVals "trip_id"
    let trip_ids := dedupFirst tripIdsRaw
    let stop_times := g.table "stop_times"
    let route_stop_times ← stop_times.filterIsin "trip_id" trip_ids
    if route_stop_times.isEmptyDF then return DF.emptyDF
    else
      let stops := get_stops g
      let stopIdsRaw ← route_stop_times.colVals "stop_id"
      stops.filterIsin "stop_id" (dedupFirst stopIdsRaw)

/-! ### Sorting (pandas `sort_values`) -/

/-- A total comparison on cell values: integers numerically, strings
lexicographically, NaN last. -/
def Val.leB : Val → Val → Bool
  | Val.vint a, Val.vint b => a ≤ b
  | Val.vstr a, Val.vstr b => a ≤ b
  | Val.vint _, _ => true
  | Val.vstr _, Val.vint _ => false
  | Val.vstr _, _ => true
  | Val.vnull, Val.vnull => true
  | Val.vnull, _ => false

/-- Row comparison by the cells of one column. -/
def rowLeBy (c : String) (a b : Row) : Prop :=
  Val.leB (a.cell c) (b.cell c) = true

instance (c : String) : DecidableRel (rowLeBy c) := fun a b =>
  instDecidableEqBool (Val.leB (a.cell c) (b.cell c)) true

/-- `df.sort_values(c)`: stable ascending sort on column `c`,
KeyError when the column is absent. -/
def DF.sortValues (df : DF) (c : String) : Except String DF :=
  if df.cols.contains c then
    Except.ok ⟨df.cols, List.insertionSort (rowLeBy c) df.rows⟩
  else Except.error ("KeyError: " ++ c)

/-! ### Geometry -/

/-- A point as the source projects it: (longitude, latitude). -/
abbrev Coord := Val × Val

/-- `GTFSProcessor.get_route_geometry`: shape of the first trip of the
route, `none` for a degenerate line. -/
def get_route_geometry (g : GTFS) (route_id : String) :
    Except String (Option (List Coord)) := do
  let trips ← get_trips g (some route_id)
  if trips.isEmptyDF || !(trips.cols.contains "shape_id") then return none
  else
    let shape_id := (trips.rows.headD []).cell "shape_id"
    if shape_id == Val.vnull then return none
    else
      let shapes ← filteredTableV (g.table "shapes") "shape_id" (some shape_id)
      if shapes.isEmptyDF then return none
      else
        let sorted ← shapes.sortValues "shape_pt_sequence"
        let lons ← sorted.colVals "shape_pt_lon"
        let lats ← sorted.colVals "shape_pt_lat"
        let coords := lons.zip lats
        return (if coords.length > 1 then some coords else none)

/-! ### Route statistics -/

/-- `Series.nunique()`: distinct non-null values. -/
def nunique (vals : List Val) : Nat :=
  (dedupFirst (vals.filter (fun v => !(v == Val.vnull)))).length

/-- The dictionary built by `calculate_route_stats`. -/
structure RouteStats where
  route_id : String
  total_trips : Nat
  total_stops : Nat
  directions : Nat
  service_ids : Nat
  has_shapes : Bool
  wheelchair_accessible_trips : Nat
  bikes_allowed_trips : Nat
deriving DecidableEq, Repr

/-- `GTFSProcessor.calculate_route_stats`; `none` models the empty dict
returned for a route with no trips. -/
def calculate_route_stats (g : GTFS) (route_id : String) :
    Except String (Option RouteStats) := do
  let trips ← get_trips g (some route_id)
  if trips.isEmptyDF then return none
  else
    let route_stops ← get_route_stops g route_id
    let shapes := g.table "shapes"
    let sv ← trips.colVals "service_id"
    return some
      { route_id := route_id
        total_trips := trips.rows.length
        total_stops := route_stops.rows.length
        directions :=
          if trips.cols.contains "direction_id" then
            nunique (trips.rows.map (fun r => r.cell "direction_id"))
          else 1
        service_ids := nunique sv
        has_shapes := !shapes.isEmptyDF && trips.cols.contains "shape_id"
        wheelchair_accessible_trips :=
          if trips.cols.contains "wheelchair_accessible" then
            (trips.rows.filter
              (fun r => r.cell "wheelchair_accessible" == Val.vint 1)).length
          else 0
        bikes_allowed_trips :=
          if trips.cols.contains "bikes_allowed" then
            (trips.rows.filter
              (fun r => r.cell "bikes_allowed" == Val.vint 1)).length
          else 0 }

/-! ### Calendar dates

Dates are proleptic-Gregorian ordinals (day 1 = 0001-01-01), exactly the
convention of Python's `date.toordinal`; `date.weekday` is 0 for Monday. -/

def isLeapYear (y : Nat) : Bool :=
  y % 4 == 0 && (y % 100 != 0 || y % 400 == 0)

def daysInMonth (y m : Nat) : Nat :=
  if m == 2 then (if isLeapYear y then 29 else 28)
  else if m == 4 || m == 6 || m == 9 || m == 11 then 30
  else 31

/-- Days in months `1 .. m-1` of year `y`. -/
def daysBeforeMonth (y m : Nat) : Nat :=
  (List.range' 1 (m - 1)).foldl (fun acc mm => acc + daysInMonth y mm) 0

/-- `date(y, m, d).toordinal()`. -/
def toOrdinal (y m d : Nat) : Nat :=
  365 * (y - 1) + (y - 1) / 4 - (y - 1) / 100 + (y - 1) / 400
    + daysBeforeMonth y m + d

/-- `date.weekday()` on an ordinal: 0 = Monday. -/
def weekdayOf (o : Nat) : Nat := (o + 6) % 7

def digitsToNat (cs : List Char) : Nat :=
  cs.foldl (fun a c => 10 * a + (c.toNat - 48)) 0

/-- `pd.to_datetime(s, format of YYYYMMDD).date()` as an ordinal;
`none` when the string is not a valid calendar date. -/
def parseYYYYMMDD (s : String) : Option Nat :=
  let cs := s.data
  if cs.length = 8 ∧ cs.all Char.isDigit then
    let y := digitsToNat (cs.take 4)
    let m := digitsToNat ((cs.drop 4).take 2)
    let d := digitsToNat (cs.drop 6)
    if 1 ≤ y ∧ 1 ≤ m ∧ m ≤ 12 ∧ 1 ≤ d ∧ d ≤ daysInMonth y m then
      some (toOrdinal y m d)
    else none
  else none

/-- The `days_map` of the source, in insertion order. -/
def daysMap : List (String × Nat) :=
  [("monday", 0), ("tuesday", 1), ("wednesday", 2), ("thursday", 3),
   ("friday", 4), ("saturday", 5), ("sunday", 6)]

/-- The active weekdays of a calendar row: days whose flag
(`service.get(day, 0)`) equals 1. -/
def activeWeekdays (r : Row) : List Nat :=
  daysMap.filterMap (fun p =>
    if r.getDefault p.1 (Val.vint 0) == Val.vint 1 then some p.2 else none)

/-- The enumeration loop of `get_service_dates`: every ordinal in
`[sd, ed]` whose weekday is active, in ascending order. -/
def enumDates (sd ed : Nat) (active : List Nat) : List Nat :=
  (List.range' sd (ed + 1 - sd)).filter (fun d => active.contains (weekdayOf d))

/-- The body of `get_service_dates` applied to the selected calendar row. -/
def serviceDatesFromRow (r : Row) : Except String (List Nat) := do
  let sv ← r.item "start_date"
  let ev ← r.item "end_date"
  match sv, ev with
  | Val.vstr ss, Val.vstr es =>
      match parseYYYYMMDD ss, parseYYYYMMDD es with
      | some sd, some ed => Except.ok (enumDates sd ed (activeWeekdays r))
      | _, _ => Except.error "ValueError: invalid date"
  | _, _ => Except.error "TypeError: date field is not a string"

/-- `GTFSProcessor.get_service_dates`. -/
def get_service_dates (g : GTFS) (service_id : String) :
    Except String (List Nat) := do
  let calendar ← get_calendar g (some service_id)
  match calendar.rows with
  | [] => return []
  | r :: _ => serviceDatesFromRow r

/-! ### Validation -/

/-- The `validation_results` dictionary. -/
structure ValidationResult where
  valid : Bool
  errors : List String
  warnings : List String
  file_counts : List (String × Nat)
deriving DecidableEq, Repr

def requiredFiles : List String :=
  ["agency", "stops", "routes", "trips", "stop_times", "calendar"]

/-- Python `repr` of a cell value as it appears inside an f-string
rendering of a list (`\x27` is the single-quote character). -/
def pyReprVal : Val → String
  | Val.vstr s => "\x27" ++ s ++ "\x27"
  | Val.vint n => toString n
  | Val.vnull => "nan"

/-- Python `", ".join` of the rendered cell values. -/
def pyListReprAux : List Val → String
  | [] => ""
  | [x] => pyReprVal x
  | x :: y :: l => pyReprVal x ++ ", " ++ pyListReprAux (y :: l)

/-- Python `str` of a list of cell values. -/
def pyListRepr (l : List Val) : String :=
  "[" ++ pyListReprAux l ++ "]"

/-- `set(child) - set(parent)`, in first-occurrence order. -/
def missingRefs (child parent : List Val) : List Val :=
  (dedupFirst child).filter (fun v => !(parent.contains v))

/-- The required-file loop of `validate_gtfs_data`. -/
def checkRequired (g : GTFS) : ValidationResult :=
  requiredFiles.foldl
    (fun acc f =>
      if !(g.hasTable f) || (g.table f).isEmptyDF then
        { acc with
          errors := acc.errors ++ ["Missing required file: " ++ f ++ ".txt"]
          valid := false }
      else
        { acc with
          file_counts := acc.file_counts ++ [(f, (g.table f).rows.length)] })
    ⟨true, [], [], []⟩

/-- One reference check of `_validate_data_consistency`: the error string
appended when `child` rows reference ids missing from `parent`. -/
def refErrors (child parent : DF) (childCol parentCol msg : String) :
    Except String (List String) :=
  if !child.isEmptyDF && !parent.isEmptyDF then do
    let cv ← child.colVals childCol
    let pv ← parent.colVals parentCol
    let missing := missingRefs cv pv
    pure (if missing.isEmpty then [] else [msg ++ pyListRepr (missing.take 5)])
  else pure []

/-- `GTFSProcessor._validate_data_consistency`: the error strings it
appends, in source order. -/
def consistencyErrors (g : GTFS) : Except String (List String) := do
  let trips := g.table "trips"
  let routes := get_routes g
  let stop_times := g.table "stop_times"
  let stops := get_stops g
  let e1 ← refErrors trips routes "route_id" "route_id"
    "Trips reference missing routes: "
  let e2 ← refErrors stop_times stops "stop_id" "stop_id"
    "Stop times reference missing stops: "
  let e3 ← refErrors stop_times trips "trip_id" "trip_id"
    "Stop times reference missing trips: "
  return e1 ++ e2 ++ e3

/-- `GTFSProcessor.validate_gtfs_data`.  Note the source appends
consistency errors without ever touching the `valid` flag. -/
def validate_gtfs_data (g : GTFS) : Except String ValidationResult :=
  let base := checkRequired g
  if base.valid then do
    let cons ← consistencyErrors g
    Except.ok { base with errors := base.errors ++ cons }
  else Except.ok base

/-! ### Synthetic demand generator (`generate_synthetic_demand.py`)

The numpy PRNG draws are abstracted as a function `draw` from the draw
index and the Poisson rate to the sampled value: seeding the PRNG fixes
this function, so a run of the script is `generateSyntheticDemand draw`
for the `draw` determined by seed 42. -/

/-- Python `f"R\x7bi:03d\x7d"` zero-padding for `0 ≤ i ≤ 999`. -/
def pad3 (n : Nat) : String :=
  if n < 10 then "00" ++ toString n
  else if n < 100 then "0" ++ toString n
  else toString n

/-- The Poisson rate the script uses for a given hour bucket. -/
def lamForHour (h : Nat) : Nat :=
  if (7 ≤ h ∧ h ≤ 9) ∨ (16 ≤ h ∧ h ≤ 18) then 35
  else if 10 ≤ h ∧ h ≤ 15 then 15
  else 5

/-- `np.clip(x, 0, 100)`. -/
def pyClip (x : Int) : Int := max 0 (min x 100)

/-- One output row of the synthetic generator. -/
structure SynRow where
  route_id : String
  stop_id : String
  hour : Nat
  weekday : Nat
  passenger_count : Int
deriving DecidableEq, Repr

def synRoutes : List String := (List.range' 1 20).map (fun i => "R" ++ pad3 i)
def synStops : List String := (List.range' 1 50).map (fun i => "ST" ++ pad3 i)
def synHours : List Nat := List.range' 6 16
def synWeekdays : List Nat := List.range 7

/-- The loop-order list of (route, stop, hour, weekday) combinations. -/
def synCombos : List (String × String × Nat × Nat) :=
  synRoutes.flatMap (fun r => synStops.flatMap (fun s =>
    synHours.flatMap (fun h => synWeekdays.map (fun w => (r, s, h, w)))))

/-- `generate_synthetic_demand.py`: one Poisson draw per combination,
rate from the hour bucket, clipped to [0, 100]. -/
def generateSyntheticDemand (draw : Nat → Nat → Int) : List SynRow :=
  synCombos.enum.map (fun p =>
    { route_id := p.2.1
      stop_id := p.2.2.1
      hour := p.2.2.2.1
      weekday := p.2.2.2.2
      passenger_count := pyClip (draw p.1 (lamForHour p.2.2.2.1)) })

/-! ### GTFS-derived demand generator (`simulate_demand.py`) -/

/-- Python `str.strip()` on the character list. -/
def pyStrip (s : String) : String :=
  String.mk (((s.data.dropWhile Char.isWhitespace).reverse.dropWhile
    Char.isWhitespace).reverse)

/-- Python `int(s)`: optional surrounding whitespace, optional sign,
then decimal digits; `none` models the `ValueError` branch. -/
def parseIntPy (s : String) : Option Int :=
  let cs := (pyStrip s).data
  match cs with
  | [] => none
  | c :: rest =>
      let ds := if c = '-' ∨ c = '+' then rest else cs
      if ds ≠ [] ∧ ds.all Char.isDigit then
        some (if c = '-' then -(digitsToNat ds : Int) else (digitsToNat ds : Int))
      else none

/-- `time_str.split(":")[0]`: the prefix before the first colon. -/
def splitColonHead (s : String) : String :=
  String.mk (s.data.takeWhile (fun c => !(c == ':')))

/-- `parse_hour` of `simulate_demand.py`:
`int(time_str.split(":")[0]) % 24`, NaN on any failure. -/
def parse_hour (s : String) : Option Nat :=
  match parseIntPy (splitColonHead s) with
  | some n => some ((n % 24).toNat)
  | none => none

/-- `apply(parse_hour)` on one cell (a non-string cell raises inside the
`try`, hence NaN). -/
def hourVal : Val → Val
  | Val.vstr s =>
      match parse_hour s with
      | some h => Val.vint (h : Int)
      | none => Val.vnull
  | _ => Val.vnull

/-- `left.merge(right, on=key)`: inner join, left row order, right
columns appended without the key. -/
def innerJoin (l r : DF) (key : String) : Except String DF :=
  if l.cols.contains key && r.cols.contains key then
    Except.ok ⟨l.cols ++ r.cols.filter (fun c => !(c == key)),
      l.rows.flatMap (fun lr =>
        (r.rows.filter (fun rr => rr.cell key == lr.cell key)).map
          (fun rr => lr ++ rr.filter (fun p => !(p.1 == key))))⟩
  else Except.error ("KeyError: " ++ key)

/-- `simulate_demand.py` pipeline after loading the three tables:
merge trips with calendar, merge stop_times in, derive the hour column,
drop rows with an unparseable hour, select columns, then attach the
random weekday and the clipped Poisson passenger count.  `wdDraw` and
`cntDraw` abstract the two seeded numpy draws by row index. -/
def simulateDemand (stop_times trips calendar : DF)
    (wdDraw cntDraw : Nat → Int) : Except String DF := do
  let trips2 ← innerJoin trips calendar "service_id"
  let st2 ← innerJoin stop_times trips2 "trip_id"
  let av ← st2.colVals "arrival_time"
  let withHour : List Row :=
    (st2.rows.zip av).map (fun p => p.1 ++ [("hour", hourVal p.2)])
  let kept := withHour.filter (fun r => !(r.cell "hour" == Val.vnull))
  if (st2.cols ++ ["hour"]).contains "route_id"
      && (st2.cols ++ ["hour"]).contains "stop_id" then
    let sel : List Row := kept.map (fun r =>
      [("route_id", r.cell "route_id"), ("stop_id", r.cell "stop_id"),
       ("hour", r.cell "hour")])
    Except.ok ⟨["route_id", "stop_id", "hour", "weekday", "passenger_count"],
      sel.enum.map (fun p =>
        p.2 ++ [("weekday", Val.vint (wdDraw p.1)),
                ("passenger_count", Val.vint (pyClip (cntDraw p.1)))])⟩
  else Except.error "KeyError: route_id"

/-! ### Derived notions used in theorem statements -/

/-- `needle` occurs as a contiguous substring of `hay`. -/
def occursIn (needle hay : String) : Prop :=
  needle.data <:+: hay.data

/-- The stop ids referenced by stop_times but absent from stops, in
first-occurrence order (the `missing_stops` set of the source). -/
def stopRefMissing (g : GTFS) : List Val :=
  missingRefs ((g.table "stop_times").rows.map (fun r => r.cell "stop_id"))
    ((g.table "stops").rows.map (fun r => r.cell "stop_id"))

/-- The error string `_validate_data_consistency` emits for missing stop
references. -/
def stopRefErr (g : GTFS) : String :=
  "Stop times reference missing stops: " ++ pyListRepr ((stopRefMissing g).take 5)

/-- Following the claim's wording (not the source): shape data exists for
the route, i.e. some trip of the route carries a non-null shape_id that
matches a row of the shapes table. -/
def specRouteHasShapeData (g : GTFS) (route_id : String) : Bool :=
  ((g.table "trips").rows.filter
      (fun r => r.cell "route_id" == Val.vstr route_id)).any (fun r =>
    !(r.cell "shape_id" == Val.vnull) &&
      (g.table "shapes").rows.any
        (fun s => s.cell "shape_id" == r.cell "shape_id"))

/-! ### Concrete feeds (fixtures for witnesses and counterexamples) -/

/-- A feed whose stop_times reference a stop id absent from stops, all six
required tables present and non-empty. -/
def gRefCE : GTFS :=
  [("agency", ⟨["agency_id"], [[("agency_id", Val.vstr "A1")]]⟩),
   ("stops", ⟨["stop_id"], [[("stop_id", Val.vstr "STP1")]]⟩),
   ("routes", ⟨["route_id"], [[("route_id", Val.vstr "R1")]]⟩),
   ("trips", ⟨["route_id", "trip_id", "service_id"],
      [[("route_id", Val.vstr "R1"), ("trip_id", Val.vstr "T1"),
        ("service_id", Val.vstr "S1")]]⟩),
   ("stop_times", ⟨["trip_id", "stop_id"],
      [[("trip_id", Val.vstr "T1"), ("stop_id", Val.vstr "GHOST")]]⟩),
   ("calendar", ⟨["service_id"], [[("service_id", Val.vstr "S1")]]⟩)]

/-- A processor state with a non-empty trips table and no stop_times table
(the slot was never loaded). -/
def gNoST : GTFS :=
  [("trips", ⟨["route_id", "trip_id"],
      [[("route_id", Val.vstr "R1"), ("trip_id", Val.vstr "T1")]]⟩)]

/-- The calendar row of the spec's example: service S1, 2024-01-01 to
2024-01-14, Monday only. -/
def calRowS1 : Row :=
  [("service_id", Val.vstr "S1"), ("monday", Val.vint 1),
   ("tuesday", Val.vint 0), ("wednesday", Val.vint 0),
   ("thursday", Val.vint 0), ("friday", Val.vint 0),
   ("saturday", Val.vint 0), ("sunday", Val.vint 0),
   ("start_date", Val.vstr "20240101"), ("end_date", Val.vstr "20240114")]

def calCols : List String :=
  ["service_id", "monday", "tuesday", "wednesday", "thursday", "friday",
   "saturday", "sunday", "start_date", "end_date"]

/-- Feed with exactly the spec's example calendar row. -/
def gCal : GTFS := [("calendar", ⟨calCols, [calRowS1]⟩)]

/-- A second calendar row for the same service with different flags and
range; used to show later matching rows are ignored. -/
def calRowS1b : Row :=
  [("service_id", Val.vstr "S1"), ("monday", Val.vint 0),
   ("tuesday", Val.vint 1), ("wednesday", Val.vint 0),
   ("thursday", Val.vint 0), ("friday", Val.vint 0),
   ("saturday", Val.vint 0), ("sunday", Val.vint 0),
   ("start_date", Val.vstr "20240201"), ("end_date", Val.vstr "20240228")]

/-- Feed whose calendar holds two rows matching service S1. -/
def gCal2 : GTFS := [("calendar", ⟨calCols, [calRowS1, calRowS1b]⟩)]

/-- Feed with one trip for route R1 whose shape SH1 has two points stored
out of sequence order. -/
def gGeo : GTFS :=
  [("trips", ⟨["route_id", "trip_id", "shape_id"],
      [[("route_id", Val.vstr "R1"), ("trip_id", Val.vstr "T1"),
        ("shape_id", Val.vstr "SH1")]]⟩),
   ("shapes", ⟨["shape_id", "shape_pt_sequence", "shape_pt_lat",
        "shape_pt_lon"],
      [[("shape_id", Val.vstr "SH1"), ("shape_pt_sequence", Val.vint 2),
        ("shape_pt_lat", Val.vint 6), ("shape_pt_lon", Val.vint 5)],
       [("shape_id", Val.vstr "SH1"), ("shape_pt_sequence", Val.vint 1),
        ("shape_pt_lat", Val.vint 4), ("shape_pt_lon", Val.vint 3)]]⟩)]

/-- Feed where route R1 has two trips both serving stop A. -/
def gDup : GTFS :=
  [("trips", ⟨["route_id", "trip_id"],
      [[("route_id", Val.vstr "R1"), ("trip_id", Val.vstr "T1")],
       [("route_id", Val.vstr "R1"), ("trip_id", Val.vstr "T2")]]⟩),
   ("stop_times", ⟨["trip_id", "stop_id"],
      [[("trip_id", Val.vstr "T1"), ("stop_id", Val.vstr "A")],
       [("trip_id", Val.vstr "T2"), ("stop_id", Val.vstr "A")],
       [("trip_id", Val.vstr "T1"), ("stop_id", Val.vstr "B")]]⟩),
   ("stops", ⟨["stop_id"],
      [[("stop_id", Val.vstr "A")], [("stop_id", Val.vstr "B")]]⟩)]

/-- Feed where the shapes table is non-empty but no shape belongs to
route R1 (its only trip has a null shape_id). -/
def gShapesCE : GTFS :=
  [("trips", ⟨["route_id", "trip_id", "service_id", "shape_id"],
      [[("route_id", Val.vstr "R1"), ("trip_id", Val.vstr "T1"),
        ("service_id", Val.vstr "S1"), ("shape_id", Val.vnull)]]⟩),
   ("stop_times", ⟨["trip_id", "stop_id"], []⟩),
   ("stops", ⟨["stop_id"], []⟩),
   ("shapes", ⟨["shape_id", "shape_pt_sequence", "shape_pt_lat",
        "shape_pt_lon"],
      [[("shape_id", Val.vstr "S9"), ("shape_pt_sequence", Val.vint 1),
        ("shape_pt_lat", Val.vint 1), ("shape_pt_lon", Val.vint 1)]]⟩)]

/-- Input tables for the GTFS-derived generator: one well-formed
after-midnight arrival and one unparseable arrival. -/
def simST : DF :=
  ⟨["trip_id", "arrival_time", "stop_id"],
    [[("trip_id", Val.vstr "T1"), ("arrival_time", Val.vstr "25:10:00"),
      ("stop_id", Val.vstr "A")],
     [("trip_id", Val.vstr "T1"), ("arrival_time", Val.vstr "ab:00"),
      ("stop_id", Val.vstr "B")]]⟩

def simTrips : DF :=
  ⟨["trip_id", "route_id", "service_id"],
    [[("trip_id", Val.vstr "T1"), ("route_id", Val.vstr "R1"),
      ("service_id", Val.vstr "S1")]]⟩

def simCalendar : DF :=
  ⟨["service_id", "monday"],
    [[("service_id", Val.vstr "S1"), ("monday", Val.vint 1)]]⟩

/-- A concrete draw function standing for one seeded numpy stream. -/
def draw0 : Nat → Nat → Int := fun i lam => (i : Int) + (lam : Int)

/-- A concrete count draw exceeding the cap, to exercise clipping. -/
def cnt0 : Nat → Int := fun _ => 150

/-- A concrete weekday draw. -/
def wd0 : Nat → Int := fun i => (i : Int) % 7

/-- The output table of `simulateDemand` on the fixture tables and draws:
the malformed arrival is dropped, hour 25 wraps to 1, count 150 clips
to 100. -/
def simOut : DF :=
  ⟨["route_id", "stop_id", "hour", "weekday", "passenger_count"],
    [[("route_id", Val.vstr "R1"), ("stop_id", Val.vstr "A"),
      ("hour", Val.vint 1), ("weekday", Val.vint 0),
      ("passenger_count", Val.vint 100)]]⟩

/-! ## Helper lemmas -/

theorem exceptBind_ok {α β : Type} {x : Except String α} {f : α → Except String β}
    {b : β} (h : x >>= f = Except.ok b) :
    ∃ a, x = Except.ok a ∧ f a = Except.ok b := by
  cases x with
  | ok a => exact ⟨a, rfl, h⟩
  | error e => simp [Bind.bind, Except.bind] at h

theorem okBind {α β : Type} (a : α) (f : α → Except String β) :
    (Except.ok a >>= f : Except String β) = f a := rfl

theorem pureOk {α : Type} (a : α) : (pure a : Except String α) = Except.ok a := rfl

theorem mem_contains {α : Type} [BEq α] [LawfulBEq α] {a : α} {l : List α} :
    l.contains a = true ↔ a ∈ l := by
  simp [List.contains, List.elem_iff]

theorem contains_eq_false_of_not_mem {α : Type} [BEq α] [LawfulBEq α] {a : α}
    {l : List α} (h : a ∉ l) : l.contains a = false := by
  rcases hc : l.contains a with _ | _
  · rfl
  · exact absurd (mem_contains.mp hc) h

theorem filteredTableV_some (t : DF) (col : String) (v : Val) :
    filteredTableV t col (some v) =
      if (!valTruthy v || t.isEmptyDF) = true then Except.ok t
      else t.filterEq col v := rfl

theorem mem_dedupFirstAux {a : Val} : ∀ (l seen : List Val),
    a ∈ dedupFirstAux seen l ↔ a ∈ l ∧ a ∉ seen := by
  intro l
  induction l with
  | nil => intro seen; simp [dedupFirstAux]
  | cons x t ih =>
    intro seen
    by_cases hx : seen.contains x = true
    · have hxmem : x ∈ seen := by simpa [List.contains, List.elem_iff] using hx
      rw [dedupFirstAux, if_pos hx, ih]
      constructor
      · rintro ⟨h1, h2⟩; exact ⟨List.mem_cons_of_mem _ h1, h2⟩
      · rintro ⟨h1, h2⟩
        rcases List.mem_cons.mp h1 with rfl | h1
        · exact absurd hxmem h2
        · exact ⟨h1, h2⟩
    · have hxmem : x ∉ seen := by
        intro hc
        exact hx (by simpa [List.contains, List.elem_iff] using hc)
      rw [dedupFirstAux, if_neg hx]
      constructor
      · intro h
        rcases List.mem_cons.mp h with rfl | h
        · exact ⟨List.mem_cons_self _ _, hxmem⟩
        · rw [ih] at h
          exact ⟨List.mem_cons_of_mem _ h.1,
            fun hs => h.2 (List.mem_cons_of_mem _ hs)⟩
      · rintro ⟨h1, h2⟩
        rcases List.mem_cons.mp h1 with rfl | h1
        · exact List.mem_cons_self _ _
        · by_cases hax : a = x
          · subst hax; exact List.mem_cons_self _ _
          · refine List.mem_cons_of_mem _ ((ih _).mpr ⟨h1, ?_⟩)
            intro hsx
            rcases List.mem_cons.mp hsx with h | h
            · exact hax h
            · exact h2 h

theorem mem_dedupFirst {a : Val} {l : List Val} : a ∈ dedupFirst l ↔ a ∈ l := by
  rw [dedupFirst, mem_dedupFirstAux]; simp

theorem Val.leB_total : ∀ a b : Val, Val.leB a b = true ∨ Val.leB b a = true := by
  intro a b
  cases a <;> cases b <;> simp [Val.leB] <;> exact le_total _ _

theorem Val.leB_trans : ∀ {a b c : Val}, Val.leB a b = true →
    Val.leB b c = true → Val.leB a c = true := by
  intro a b c h1 h2
  cases a <;> cases b <;> cases c <;> simp_all [Val.leB] <;> exact le_trans h1 h2

theorem rowLeBy_total (c : String) (a b : Row) : rowLeBy c a b ∨ rowLeBy c b a :=
  Val.leB_total (a.cell c) (b.cell c)

theorem rowLeBy_trans (c : String) {a b d : Row} (h1 : rowLeBy c a b)
    (h2 : rowLeBy c b d) : rowLeBy c a d :=
  Val.leB_trans h1 h2

theorem pyClip_nonneg (x : Int) : 0 ≤ pyClip x := le_max_left 0 _

theorem pyClip_le (x : Int) : pyClip x ≤ 100 :=
  max_le (by norm_num) (min_le_right x 100)

theorem pyListReprAux_decomp : ∀ (l : List Val) (x : Val), x ∈ l →
    ∃ p q, (pyListReprAux l).data = p ++ (pyReprVal x).data ++ q := by
  intro l
  induction l with
  | nil => intro x hx; cases hx
  | cons a t ih =>
    intro x hx
    cases t with
    | nil =>
      rcases List.mem_cons.mp hx with rfl | hx
      · exact ⟨[], [], by simp [pyListReprAux]⟩
      · cases hx
    | cons b t2 =>
      rcases List.mem_cons.mp hx with rfl | hx
      · refine ⟨[], (", " ++ pyListReprAux (b :: t2)).data, ?_⟩
        simp [pyListReprAux]
      · obtain ⟨p, q, hpq⟩ := ih x hx
        refine ⟨(pyReprVal a ++ ", ").data ++ p, q, ?_⟩
        simp [pyListReprAux, hpq]

theorem occursIn_of_mem {s : String} {l : List Val} (msg : String)
    (h : Val.vstr s ∈ l) : occursIn s (msg ++ pyListRepr l) := by
  obtain ⟨p, q, hpq⟩ := pyListReprAux_decomp l _ h
  refine ⟨msg.data ++ "[".data ++ p ++ ['\x27'], ['\x27'] ++ q ++ "]".data, ?_⟩
  simp [pyListRepr, pyReprVal, hpq]

/-! ## Claims -/

/-- C8: passing the falsy filter value `""` to any of the six filtered
accessors behaves exactly like passing no filter: the full stored table is
returned, not the subset of rows whose key equals `""`. -/
theorem claim_C8_falsy_filter_full_table (g : GTFS) :
    get_trips g (some "") = Except.ok (g.table "trips") ∧
    get_stop_times g (some "") = Except.ok (g.table "stop_times") ∧
    get_shapes g (some "") = Except.ok (g.table "shapes") ∧
    get_calendar g (some "") = Except.ok (g.table "calendar") ∧
    get_frequencies g (some "") = Except.ok (g.table "frequencies") ∧
    get_transfers g (some "") (some "") = Except.ok (g.table "transfers") ∧
    get_trips g (some "") = get_trips g none ∧
    get_stop_times g (some "") = get_stop_times g none ∧
    get_shapes g (some "") = get_shapes g none ∧
    get_calendar g (some "") = get_calendar g none ∧
    get_frequencies g (some "") = get_frequencies g none ∧
    get_transfers g (some "") (some "") = get_transfers g none none :=
  ⟨rfl, rfl, rfl, rfl, rfl, rfl, rfl, rfl, rfl, rfl, rfl, rfl⟩

/-- C8 witness: the equivalence evaluated on a concrete feed. -/
theorem claim_C8_witness :
    get_trips gRefCE (some "") = Except.ok (gRefCE.table "trips") :=
  (claim_C8_falsy_filter_full_table gRefCE).1

/-- C2 counterexample: on a successfully constructed processor whose trips
table is non-empty but whose stop_times table was never loaded,
`get_route_stops` raises a KeyError instead of returning a result. -/
theorem claim_C2_counterexample :
    get_route_stops gNoST "R1" = Except.error "KeyError: trip_id" := by rfl

/-- C2 (amended): read operations can raise; `get_route_stops` returns a
result without raising provided the trips, stop_times and stops tables all
contain the key columns the joins touch. -/
theorem claim_C2_no_raise_with_columns (g : GTFS) (rid : String)
    (h1 : "route_id" ∈ (g.table "trips").cols)
    (h2 : "trip_id" ∈ (g.table "trips").cols)
    (h3 : "trip_id" ∈ (g.table "stop_times").cols)
    (h4 : "stop_id" ∈ (g.table "stop_times").cols)
    (h5 : "stop_id" ∈ (g.table "stops").cols) :
    ∃ df, get_route_stops g rid = Except.ok df := by
  have htr : ∃ tr : DF, get_trips g (some rid) = Except.ok tr ∧
      tr.cols = (g.table "trips").cols := by
    by_cases hc : (!valTruthy (Val.vstr rid) || (g.table "trips").isEmptyDF) = true
    · exact ⟨_, by simp [get_trips, filteredTable, filteredTableV, hc], rfl⟩
    · refine ⟨⟨(g.table "trips").cols,
        (g.table "trips").rows.filter
          (fun r => r.cell "route_id" == Val.vstr rid)⟩, ?_, rfl⟩
      simp [get_trips, filteredTable, filteredTableV, hc, DF.filterEq, h1]
  obtain ⟨tr, htr, hcols⟩ := htr
  unfold get_route_stops
  rw [htr, okBind]
  by_cases hemp : tr.isEmptyDF = true
  · rw [if_pos hemp, pureOk]; exact ⟨_, rfl⟩
  · rw [if_neg hemp]
    have hids : tr.colVals "trip_id" =
        Except.ok (tr.rows.map (fun r => r.cell "trip_id")) := by
      unfold DF.colVals
      rw [if_pos (mem_contains.mpr (hcols ▸ h2))]
    rw [hids, okBind]
    dsimp only
    obtain ⟨rst, hrstOk, hrstCols⟩ : ∃ rst : DF,
        (g.table "stop_times").filterIsin "trip_id"
          (dedupFirst (tr.rows.map (fun r => r.cell "trip_id"))) =
            Except.ok rst ∧
        rst.cols = (g.table "stop_times").cols := by
      unfold DF.filterIsin
      rw [if_pos (mem_contains.mpr h3)]
      exact ⟨_, rfl, rfl⟩
    rw [hrstOk, okBind]
    by_cases hre : rst.isEmptyDF = true
    · rw [if_pos hre, pureOk]; exact ⟨_, rfl⟩
    · rw [if_neg hre]
      have hsids : rst.colVals "stop_id" =
          Except.ok (rst.rows.map (fun r => r.cell "stop_id")) := by
        unfold DF.colVals
        rw [if_pos (mem_contains.mpr (hrstCols ▸ h4))]
      rw [hsids, okBind]
      unfold get_stops DF.filterIsin
      rw [if_pos (mem_contains.mpr h5)]
      exact ⟨_, rfl⟩

/-- C2 amended witness: on a feed holding all key columns the composite
lookup returns without raising. -/
theorem claim_C2_witness : ∃ df, get_route_stops gDup "R1" = Except.ok df :=
  claim_C2_no_raise_with_columns gDup "R1" (by decide) (by decide) (by decide)
    (by decide) (by decide)

/-- C10: when several calendar rows match a service_id, the result of
`get_service_dates` is computed from the first matching row only: any two
processors whose filtered calendars share the same first row agree. -/
theorem claim_C10_first_row_only (g1 g2 : GTFS) (sid : String) (r : Row)
    (c1 c2 : List String) (l1 l2 : List Row)
    (h1 : get_calendar g1 (some sid) = Except.ok ⟨c1, r :: l1⟩)
    (h2 : get_calendar g2 (some sid) = Except.ok ⟨c2, r :: l2⟩) :
    get_service_dates g1 sid = get_service_dates g2 sid := by
  unfold get_service_dates
  rw [h1, h2, okBind, okBind]

/-- C10 witness: a calendar with one matching row and one with a second
(different) matching row produce the same dates. -/
theorem claim_C10_witness :
    get_service_dates gCal "S1" = get_service_dates gCal2 "S1" :=
  claim_C10_first_row_only gCal gCal2 "S1" calRowS1 calCols calCols []
    [calRowS1b] (by rfl) (by rfl)

/-- C3: for a service whose first matching calendar row carries valid
YYYYMMDD dates, `get_service_dates` returns exactly the dates in
[start, end] whose weekday flag is active, in strictly ascending order;
with no matching row it returns []; and on the spec's example row it
returns exactly the two Mondays 2024-01-01 and 2024-01-08. -/
theorem claim_C3_service_dates (g : GTFS) (sid : String) :
    (∀ (cal : DF) (r : Row) (rest : List Row) (ss es : String) (sd ed : Nat),
      get_calendar g (some sid) = Except.ok cal →
      cal.rows = r :: rest →
      r.item "start_date" = Except.ok (Val.vstr ss) →
      r.item "end_date" = Except.ok (Val.vstr es) →
      parseYYYYMMDD ss = some sd →
      parseYYYYMMDD es = some ed →
      ∃ ds, get_service_dates g sid = Except.ok ds ∧
        (∀ d, d ∈ ds ↔ (sd ≤ d ∧ d ≤ ed ∧ weekdayOf d ∈ activeWeekdays r)) ∧
        ds.Pairwise (· < ·)) ∧
    (∀ cal : DF, get_calendar g (some sid) = Except.ok cal → cal.rows = [] →
      get_service_dates g sid = Except.ok []) ∧
    get_service_dates gCal "S1" =
      Except.ok [toOrdinal 2024 1 1, toOrdinal 2024 1 8] := by
  refine ⟨?_, ?_, by rfl⟩
  · intro cal r rest ss es sd ed hcal hrows hs he hps hpe
    refine ⟨enumDates sd ed (activeWeekdays r), ?_, ?_, ?_⟩
    · unfold get_service_dates
      rw [hcal, okBind]
      rcases cal with ⟨cc, crows⟩
      dsimp only at hrows
      subst hrows
      dsimp only
      unfold serviceDatesFromRow
      rw [hs, okBind, he, okBind]
      dsimp only
      rw [hps, hpe]
    · intro d
      unfold enumDates
      rw [List.mem_filter]
      constructor
      · rintro ⟨hm, hc⟩
        rw [List.mem_range'_1] at hm
        exact ⟨hm.1, by omega, mem_contains.mp hc⟩
      · rintro ⟨hl, hr, hw⟩
        refine ⟨List.mem_range'_1.mpr ⟨hl, by omega⟩, mem_contains.mpr hw⟩
    · exact List.Pairwise.sublist (List.filter_sublist _)
        (List.pairwise_lt_range' sd _)
  · intro cal hcal hrows
    unfold get_service_dates
    rw [hcal, okBind]
    rcases cal with ⟨cc, crows⟩
    dsimp only at hrows
    subst hrows
    rfl

/-- C3 witness: the general statement applied to the spec's example
calendar row. -/
theorem claim_C3_witness :
    ∃ ds, get_service_dates gCal "S1" = Except.ok ds ∧
      (∀ d, d ∈ ds ↔ (toOrdinal 2024 1 1 ≤ d ∧ d ≤ toOrdinal 2024 1 14 ∧
        weekdayOf d ∈ activeWeekdays calRowS1)) ∧
      ds.Pairwise (· < ·) :=
  (claim_C3_service_dates gCal "S1").1 ⟨calCols, [calRowS1]⟩ calRowS1 []
    "20240101" "20240114" (toOrdinal 2024 1 1) (toOrdinal 2024 1 14)
    (by rfl) rfl (by rfl) (by rfl) (by decide) (by decide)

/-- C9: `parse_hour` keeps an arrival time whose hour prefix parses as an
integer, reducing the hour modulo 24 (so "25:10:00" yields hour 1), and
returns a missing value exactly when the prefix is unparseable; in the
pipeline the malformed row is dropped and the after-midnight row kept. -/
theorem claim_C9_after_midnight_hours :
    (∀ s n, parseIntPy (splitColonHead s) = some n →
      parse_hour s = some ((n % 24).toNat)) ∧
    (∀ s, parseIntPy (splitColonHead s) = none → parse_hour s = none) ∧
    parse_hour "25:10:00" = some 1 ∧
    simulateDemand simST simTrips simCalendar wd0 cnt0 = Except.ok simOut := by
  refine ⟨?_, ?_, by rfl, by rfl⟩
  · intro s n h
    unfold parse_hour
    rw [h]
  · intro s h
    unfold parse_hour
    rw [h]

/-- C9 witness: the general clause applied to the after-midnight
timestamp. -/
theorem claim_C9_witness : parse_hour "25:10:00" = some (((25 : Int) % 24).toNat) :=
  claim_C9_after_midnight_hours.1 "25:10:00" 25 (by rfl)

/-- The rows of a `get_route_stops` result are either empty or a filtered
subset of the stops table's rows. -/
theorem routeStops_rows_shape (g : GTFS) (rid : String) (df : DF)
    (h : get_route_stops g rid = Except.ok df) :
    df.rows = [] ∨ ∃ p : Row → Bool, df.rows = (g.table "stops").rows.filter p := by
  unfold get_route_stops at h
  obtain ⟨tr, htr, h⟩ := exceptBind_ok h
  by_cases hemp : tr.isEmptyDF = true
  · rw [if_pos hemp, pureOk] at h
    cases h
    left
    rfl
  · rw [if_neg hemp] at h
    obtain ⟨ids, hids, h⟩ := exceptBind_ok h
    dsimp only at h
    obtain ⟨rst, hrst, h⟩ := exceptBind_ok h
    by_cases hre : rst.isEmptyDF = true
    · rw [if_pos hre, pureOk] at h
      cases h
      left
      rfl
    · rw [if_neg hre] at h
      obtain ⟨sids, hsids, h⟩ := exceptBind_ok h
      unfold get_stops DF.filterIsin at h
      split at h
      · cases h
        right
        exact ⟨_, rfl⟩
      · cases h

/-- C5: assuming stop ids are unique in the stops table, a
`get_route_stops` result has no duplicate stop ids; and the result is the
empty frame when the route has no trips or no stop_times row matches the
route's trips. -/
theorem claim_C5_route_stops_dedup (g : GTFS) (rid : String) :
    (∀ df, ((g.table "stops").rows.map (fun r => r.cell "stop_id")).Nodup →
      get_route_stops g rid = Except.ok df →
      (df.rows.map (fun r => r.cell "stop_id")).Nodup) ∧
    (∀ tr, get_trips g (some rid) = Except.ok tr → tr.rows = [] →
      get_route_stops g rid = Except.ok DF.emptyDF) ∧
    (∀ tr, get_trips g (some rid) = Except.ok tr → tr.rows ≠ [] →
      "trip_id" ∈ tr.cols → "trip_id" ∈ (g.table "stop_times").cols →
      (g.table "stop_times").rows.filter (fun r =>
        (dedupFirst (tr.rows.map (fun r => r.cell "trip_id"))).contains
          (r.cell "trip_id")) = [] →
      get_route_stops g rid = Except.ok DF.emptyDF) := by
  refine ⟨?_, ?_, ?_⟩
  · intro df hnodup h
    rcases routeStops_rows_shape g rid df h with hnil | ⟨p, hp⟩
    · simp [hnil]
    · rw [hp]
      exact List.Nodup.sublist ((List.filter_sublist _).map _) hnodup
  · intro tr htr hnil
    unfold get_route_stops
    rw [htr, okBind, if_pos (by simp [DF.isEmptyDF, hnil]), pureOk]
  · intro tr htr hne hc1 hc2 hfilter
    unfold get_route_stops
    rw [htr, okBind, if_neg (by simp [DF.isEmptyDF, hne])]
    have hids : tr.colVals "trip_id" =
        Except.ok (tr.rows.map (fun r => r.cell "trip_id")) := by
      unfold DF.colVals
      rw [if_pos (mem_contains.mpr hc1)]
    rw [hids, okBind]
    dsimp only
    unfold DF.filterIsin
    rw [if_pos (mem_contains.mpr hc2), hfilter, okBind,
      if_pos (by rfl), pureOk]

/-- C5 witness: on a feed whose route has two trips serving stop A, the
result lists each stop once. -/
theorem claim_C5_witness :
    (((⟨["stop_id"], [[("stop_id", Val.vstr "A")], [("stop_id", Val.vstr "B")]]⟩ :
        DF)).rows.map (fun r => r.cell "stop_id")).Nodup :=
  (claim_C5_route_stops_dedup gDup "R1").1 _ (by decide) (by rfl)

/-- C4: `get_route_geometry` returns no geometry when the route has no
trips (or trips lack a shape_id column), when the first trip's shape_id is
null, or when the selected shape has fewer than 2 points; otherwise it
returns the shape's points sorted by ascending shape_pt_sequence, each
projected as a (longitude, latitude) pair. -/
theorem claim_C4_route_geometry (g : GTFS) (rid : String) :
    (∀ tr, get_trips g (some rid) = Except.ok tr →
      (tr.rows = [] ∨ "shape_id" ∉ tr.cols) →
      get_route_geometry g rid = Except.ok none) ∧
    (∀ tr r rest, get_trips g (some rid) = Except.ok tr →
      tr.rows = r :: rest → "shape_id" ∈ tr.cols →
      r.cell "shape_id" = Val.vnull →
      get_route_geometry g rid = Except.ok none) ∧
    (∀ tr r rest s, get_trips g (some rid) = Except.ok tr →
      tr.rows = r :: rest → "shape_id" ∈ tr.cols →
      r.cell "shape_id" = Val.vstr s → s ≠ "" →
      ((g.table "shapes").rows ≠ [] →
        "shape_id" ∈ (g.table "shapes").cols ∧
        "shape_pt_sequence" ∈ (g.table "shapes").cols ∧
        "shape_pt_lon" ∈ (g.table "shapes").cols ∧
        "shape_pt_lat" ∈ (g.table "shapes").cols) →
      (((g.table "shapes").rows.filter
          (fun row => row.cell "shape_id" == Val.vstr s)).length < 2 →
        get_route_geometry g rid = Except.ok none) ∧
      (2 ≤ ((g.table "shapes").rows.filter
          (fun row => row.cell "shape_id" == Val.vstr s)).length →
        ∃ sortedPts : List Row,
          get_route_geometry g rid = Except.ok (some (sortedPts.map
            (fun row => (row.cell "shape_pt_lon", row.cell "shape_pt_lat")))) ∧
          sortedPts.Perm ((g.table "shapes").rows.filter
            (fun row => row.cell "shape_id" == Val.vstr s)) ∧
          sortedPts.Pairwise (rowLeBy "shape_pt_sequence"))) := by
  refine ⟨?_, ?_, ?_⟩
  · intro tr htr hcase
    have hcond : (tr.isEmptyDF || !(tr.cols.contains "shape_id")) = true := by
      rcases hcase with h | h
      · simp only [DF.isEmptyDF, h, List.isEmpty_nil, Bool.true_or]
      · have hc : tr.cols.contains "shape_id" = false := by
          rcases hc2 : tr.cols.contains "shape_id" with _ | _
          · rfl
          · exact absurd (mem_contains.mp hc2) h
        rw [hc]
        exact Bool.or_true _
    unfold get_route_geometry
    rw [htr, okBind, if_pos hcond, pureOk]
  · intro tr r rest htr hrows hcol hnull
    have hcond : (tr.isEmptyDF || !(tr.cols.contains "shape_id")) = false := by
      rw [mem_contains.mpr hcol]
      simp only [DF.isEmptyDF, hrows, List.isEmpty_cons, Bool.not_true,
        Bool.or_false]
    unfold get_route_geometry
    rw [htr, okBind, if_neg (by rw [hcond]; exact Bool.false_ne_true)]
    dsimp only
    rw [hrows]
    dsimp only [List.headD]
    rw [hnull, if_pos (by rfl), pureOk]
  · intro tr r rest s htr hrows hcol hsv hs0 hshapes
    have hcond : (tr.isEmptyDF || !(tr.cols.contains "shape_id")) = false := by
      rw [mem_contains.mpr hcol]
      simp only [DF.isEmptyDF, hrows, List.isEmpty_cons, Bool.not_true,
        Bool.or_false]
    have hstep : ∀ z : Except String (Option (List Coord)),
        (get_route_geometry g rid = z) ↔
        ((filteredTableV (g.table "shapes") "shape_id"
            (some (Val.vstr s)) >>= fun shapes =>
          if shapes.isEmptyDF = true then pure none
          else shapes.sortValues "shape_pt_sequence" >>= fun sorted =>
            sorted.colVals "shape_pt_lon" >>= fun lons =>
            sorted.colVals "shape_pt_lat" >>= fun lats =>
            pure (if (lons.zip lats).length > 1
              then some (lons.zip lats) else none)) = z) := by
      intro z
      unfold get_route_geometry
      rw [htr, okBind, if_neg (by rw [hcond]; exact Bool.false_ne_true)]
      dsimp only
      rw [hrows]
      dsimp only [List.headD]
      rw [hsv, if_neg (by exact fun hc => by cases hc)]
    rcases hrowsE : (g.table "shapes").rows with _ | ⟨s0, srest⟩
    · -- shapes table empty: the filter is skipped, the empty table flows on
      have hfil : filteredTableV (g.table "shapes") "shape_id"
          (some (Val.vstr s)) = Except.ok (g.table "shapes") := by
        rw [filteredTableV_some, if_pos (by simp [DF.isEmptyDF, hrowsE])]
      constructor
      · intro _
        rw [hstep]
        rw [hfil, okBind, if_pos (by simp [DF.isEmptyDF, hrowsE]), pureOk]
      · intro habs
        simp [hrowsE] at habs
    · -- shapes table non-empty: the filter applies
      obtain ⟨hcs, hcseq, hclon, hclat⟩ := hshapes (by rw [hrowsE]; simp)
      have hsEF : s.isEmpty = false := by
        rcases hie : s.isEmpty with _ | _
        · rfl
        · exact absurd ((String.isEmpty_iff s).mp hie) hs0
      have hisEmptyF : (g.table "shapes").isEmptyDF = false := by
        simp only [DF.isEmptyDF, hrowsE, List.isEmpty_cons]
      have hfil : filteredTableV (g.table "shapes") "shape_id"
          (some (Val.vstr s)) = Except.ok ⟨(g.table "shapes").cols,
            List.filter (fun row => row.cell "shape_id" == Val.vstr s)
              (s0 :: srest)⟩ := by
        have hcondF : (!valTruthy (Val.vstr s) ||
            (g.table "shapes").isEmptyDF) = false := by
          show (!(!s.isEmpty) || (g.table "shapes").isEmptyDF) = false
          rw [hsEF, hisEmptyF]
          rfl
        rw [filteredTableV_some,
          if_neg (by rw [hcondF]; exact Bool.false_ne_true)]
        unfold DF.filterEq
        rw [if_pos (mem_contains.mpr hcs), hrowsE]
      rcases hptsE : List.filter (fun row => row.cell "shape_id" == Val.vstr s)
          (s0 :: srest) with _ | ⟨p0, prest⟩
      · constructor
        · intro _
          rw [hstep, hfil, okBind, hptsE,
            if_pos (by simp [DF.isEmptyDF]), pureOk]
        · intro habs
          rw [hptsE] at habs
          simp at habs
      · have hsorted : (⟨(g.table "shapes").cols, p0 :: prest⟩ : DF).sortValues
            "shape_pt_sequence" = Except.ok ⟨(g.table "shapes").cols,
              List.insertionSort (rowLeBy "shape_pt_sequence") (p0 :: prest)⟩ := by
          unfold DF.sortValues
          rw [if_pos (mem_contains.mpr hcseq)]
        have hlons : (⟨(g.table "shapes").cols,
            List.insertionSort (rowLeBy "shape_pt_sequence") (p0 :: prest)⟩ :
              DF).colVals "shape_pt_lon" = Except.ok
              ((List.insertionSort (rowLeBy "shape_pt_sequence")
                (p0 :: prest)).map (fun row => row.cell "shape_pt_lon")) := by
          unfold DF.colVals
          rw [if_pos (mem_contains.mpr hclon)]
        have hlats : (⟨(g.table "shapes").cols,
            List.insertionSort (rowLeBy "shape_pt_sequence") (p0 :: prest)⟩ :
              DF).colVals "shape_pt_lat" = Except.ok
              ((List.insertionSort (rowLeBy "shape_pt_sequence")
                (p0 :: prest)).map (fun row => row.cell "shape_pt_lat")) := by
          unfold DF.colVals
          rw [if_pos (mem_contains.mpr hclat)]
        have hzip : ((List.insertionSort (rowLeBy "shape_pt_sequence")
            (p0 :: prest)).map (fun row => row.cell "shape_pt_lon")).zip
            ((List.insertionSort (rowLeBy "shape_pt_sequence")
              (p0 :: prest)).map (fun row => row.cell "shape_pt_lat")) =
            (List.insertionSort (rowLeBy "shape_pt_sequence")
              (p0 :: prest)).map (fun row =>
                (row.cell "shape_pt_lon", row.cell "shape_pt_lat")) :=
          List.zip_map' _ _ _
        have hlen : (List.insertionSort (rowLeBy "shape_pt_sequence")
            (p0 :: prest)).length = (p0 :: prest).length :=
          (List.perm_insertionSort _ _).length_eq
        constructor
        · intro hlt
          rw [hptsE] at hlt
          rw [hstep, hfil, okBind, hptsE, if_neg (by simp [DF.isEmptyDF]),
            hsorted, okBind, hlons, okBind, hlats, okBind, pureOk]
          rw [hzip]
          rw [if_neg (by simp only [List.length_map, hlen]; omega)]
        · intro h2
          rw [hptsE] at h2
          refine ⟨List.insertionSort (rowLeBy "shape_pt_sequence") (p0 :: prest),
            ?_, by rw [hptsE]; exact List.perm_insertionSort _ _, ?_⟩
          · rw [hstep, hfil, okBind, hptsE, if_neg (by simp [DF.isEmptyDF]),
              hsorted, okBind, hlons, okBind, hlats, okBind, pureOk]
            rw [hzip]
            rw [if_pos (by simp only [List.length_map, hlen]; omega)]
          · haveI : IsTotal Row (rowLeBy "shape_pt_sequence") :=
              ⟨rowLeBy_total _⟩
            haveI : IsTrans Row (rowLeBy "shape_pt_sequence") :=
              ⟨fun _ _ _ => rowLeBy_trans _⟩
            exact List.sorted_insertionSort _ _

/-- C4 witness: a route whose shape has two points stored out of order
yields the two points sorted by sequence. -/
theorem claim_C4_witness :
    ∃ sortedPts : List Row,
      get_route_geometry gGeo "R1" = Except.ok (some (sortedPts.map
        (fun row => (row.cell "shape_pt_lon", row.cell "shape_pt_lat")))) ∧
      sortedPts.Perm ((gGeo.table "shapes").rows.filter
        (fun row => row.cell "shape_id" == Val.vstr "SH1")) ∧
      sortedPts.Pairwise (rowLeBy "shape_pt_sequence") :=
  ((claim_C4_route_geometry gGeo "R1").2.2
    ⟨["route_id", "trip_id", "shape_id"],
      [[("route_id", Val.vstr "R1"), ("trip_id", Val.vstr "T1"),
        ("shape_id", Val.vstr "SH1")]]⟩
    [("route_id", Val.vstr "R1"), ("trip_id", Val.vstr "T1"),
      ("shape_id", Val.vstr "SH1")] [] "SH1"
    (by rfl) (by rfl) (by decide) (by rfl) (by decide)
    (fun _ => ⟨by decide, by decide, by decide, by decide⟩)).2 (by decide)

/-- C6 counterexample: `has_shapes` is computed from the whole shapes table,
not from shape data of this route: on a feed whose only trip of R1 has a
null shape_id while an unrelated shape exists, the stats report
`has_shapes = true` although no shape data exists for R1. -/
theorem claim_C6_counterexample :
    calculate_route_stats gShapesCE "R1" = Except.ok (some
      { route_id := "R1", total_trips := 1, total_stops := 0, directions := 1,
        service_ids := 1, has_shapes := true,
        wheelchair_accessible_trips := 0, bikes_allowed_trips := 0 }) ∧
    specRouteHasShapeData gShapesCE "R1" = false :=
  ⟨by rfl, by rfl⟩

/-- C6 (amended): for a route with at least one trip the stats record holds
the trip count, distinct direction count (1 when the column is absent),
distinct service_id count, wheelchair/bikes counts of value == 1 (0 when
the column is absent), and `has_shapes` true exactly when the shapes table
is non-empty and the trips table has a shape_id column; a route with no
trips yields the empty structure. -/
theorem claim_C6_route_stats (g : GTFS) (rid : String) :
    (∀ tr, get_trips g (some rid) = Except.ok tr → tr.rows = [] →
      calculate_route_stats g rid = Except.ok none) ∧
    (∀ tr rs, get_trips g (some rid) = Except.ok tr → tr.rows ≠ [] →
      get_route_stops g rid = Except.ok rs →
      "service_id" ∈ tr.cols →
      ∃ st : RouteStats, calculate_route_stats g rid = Except.ok (some st) ∧
        st.total_trips = tr.rows.length ∧
        st.directions = (if "direction_id" ∈ tr.cols then
          nunique (tr.rows.map (fun r => r.cell "direction_id")) else 1) ∧
        st.service_ids = nunique (tr.rows.map (fun r => r.cell "service_id")) ∧
        st.has_shapes = (!(g.table "shapes").isEmptyDF &&
          tr.cols.contains "shape_id") ∧
        st.wheelchair_accessible_trips = (if "wheelchair_accessible" ∈ tr.cols
          then (tr.rows.filter (fun r =>
            r.cell "wheelchair_accessible" == Val.vint 1)).length else 0) ∧
        st.bikes_allowed_trips = (if "bikes_allowed" ∈ tr.cols
          then (tr.rows.filter (fun r =>
            r.cell "bikes_allowed" == Val.vint 1)).length else 0) ∧
        st.total_stops = rs.rows.length) := by
  constructor
  · intro tr htr hnil
    unfold calculate_route_stats
    rw [htr, okBind, if_pos (by simp [DF.isEmptyDF, hnil]), pureOk]
  · intro tr rs htr hne hrs hsv
    unfold calculate_route_stats
    rw [htr, okBind, if_neg (by simp [DF.isEmptyDF, hne])]
    dsimp only
    rw [hrs, okBind]
    have hsvOk : tr.colVals "service_id" =
        Except.ok (tr.rows.map (fun r => r.cell "service_id")) := by
      unfold DF.colVals
      rw [if_pos (mem_contains.mpr hsv)]
    rw [hsvOk, okBind, pureOk]
    refine ⟨_, rfl, rfl, ?_, rfl, rfl, ?_, ?_, rfl⟩
    · dsimp only
      by_cases hd : "direction_id" ∈ tr.cols
      · rw [if_pos (mem_contains.mpr hd), if_pos hd]
      · rw [if_neg (by rw [contains_eq_false_of_not_mem hd]; exact Bool.false_ne_true), if_neg hd]
    · dsimp only
      by_cases hd : "wheelchair_accessible" ∈ tr.cols
      · rw [if_pos (mem_contains.mpr hd), if_pos hd]
      · rw [if_neg (by rw [contains_eq_false_of_not_mem hd]; exact Bool.false_ne_true), if_neg hd]
    · dsimp only
      by_cases hd : "bikes_allowed" ∈ tr.cols
      · rw [if_pos (mem_contains.mpr hd), if_pos hd]
      · rw [if_neg (by rw [contains_eq_false_of_not_mem hd]; exact Bool.false_ne_true), if_neg hd]

/-- C6 witness: the amended statement applied to a concrete feed. -/
theorem claim_C6_witness :
    ∃ st : RouteStats, calculate_route_stats gShapesCE "R1" =
      Except.ok (some st) ∧
    st.total_trips = 1 := by
  obtain ⟨st, hst, h1, -⟩ := (claim_C6_route_stats gShapesCE "R1").2
    ⟨["route_id", "trip_id", "service_id", "shape_id"],
      [[("route_id", Val.vstr "R1"), ("trip_id", Val.vstr "T1"),
        ("service_id", Val.vstr "S1"), ("shape_id", Val.vnull)]]⟩
    DF.emptyDF (by rfl) (by decide) (by rfl) (by decide)
  exact ⟨st, hst, h1⟩

/-- C1 counterexample: on a feed whose stop_times reference the missing
stop GHOST with all six required tables present and non-empty,
`validate_gtfs_data` reports the error string but leaves `valid` True —
the consistency pass never clears the flag. -/
theorem claim_C1_counterexample :
    validate_gtfs_data gRefCE = Except.ok
      { valid := true,
        errors := ["Stop times reference missing stops: [\x27GHOST\x27]"],
        warnings := [],
        file_counts := [("agency", 1), ("stops", 1), ("routes", 1),
          ("trips", 1), ("stop_times", 1), ("calendar", 1)] } := by rfl

/-- C1 (amended): with all required tables present and non-empty and a
stop_times row referencing a stop id absent from stops, the result's
errors contain the missing-stops error string (listing the first at most 5
missing ids, naming the given id whenever it is among them) — but the
`valid` field remains True: validity reflects only required-table
presence. -/
theorem claim_C1_validate_missing_stop (g : GTFS) (sid : String)
    (hreq : ∀ f ∈ requiredFiles, g.hasTable f = true ∧ (g.table f).rows ≠ [])
    (hc1 : "route_id" ∈ (g.table "trips").cols)
    (hc2 : "route_id" ∈ (g.table "routes").cols)
    (hc3 : "stop_id" ∈ (g.table "stop_times").cols)
    (hc4 : "stop_id" ∈ (g.table "stops").cols)
    (hc5 : "trip_id" ∈ (g.table "stop_times").cols)
    (hc6 : "trip_id" ∈ (g.table "trips").cols)
    (hrow : Val.vstr sid ∈ (g.table "stop_times").rows.map
      (fun r => r.cell "stop_id"))
    (habs : Val.vstr sid ∉ (g.table "stops").rows.map
      (fun r => r.cell "stop_id")) :
    ∃ res, validate_gtfs_data g = Except.ok res ∧
      res.valid = true ∧
      stopRefErr g ∈ res.errors ∧
      Val.vstr sid ∈ stopRefMissing g ∧
      (Val.vstr sid ∈ (stopRefMissing g).take 5 →
        occursIn sid (stopRefErr g)) := by
  have hmiss : Val.vstr sid ∈ stopRefMissing g := by
    unfold stopRefMissing missingRefs
    refine List.mem_filter.mpr ⟨mem_dedupFirst.mpr hrow, ?_⟩
    rw [contains_eq_false_of_not_mem habs]
    rfl
  have hEF : ∀ f, (g.table f).rows ≠ [] → (g.table f).isEmptyDF = false := by
    intro f hf
    rcases hie : (g.table f).isEmptyDF with _ | _
    · rfl
    · exact absurd (by simpa [DF.isEmptyDF, List.isEmpty_iff] using hie) hf
  have hA := hreq "agency" (by simp [requiredFiles])
  have hS := hreq "stops" (by simp [requiredFiles])
  have hR := hreq "routes" (by simp [requiredFiles])
  have hT := hreq "trips" (by simp [requiredFiles])
  have hST := hreq "stop_times" (by simp [requiredFiles])
  have hC := hreq "calendar" (by simp [requiredFiles])
  have condF : ∀ f, g.hasTable f = true → (g.table f).rows ≠ [] →
      (!(g.hasTable f) || (g.table f).isEmptyDF) = false := by
    intro f h1 h2
    rw [h1, hEF f h2]
    rfl
  have hcheck : checkRequired g = ⟨true, [], [],
      [("agency", (g.table "agency").rows.length),
       ("stops", (g.table "stops").rows.length),
       ("routes", (g.table "routes").rows.length),
       ("trips", (g.table "trips").rows.length),
       ("stop_times", (g.table "stop_times").rows.length),
       ("calendar", (g.table "calendar").rows.length)]⟩ := by
    unfold checkRequired requiredFiles
    simp only [List.foldl]
    rw [if_neg (by rw [condF _ hC.1 hC.2]; exact Bool.false_ne_true),
      if_neg (by rw [condF _ hST.1 hST.2]; exact Bool.false_ne_true),
      if_neg (by rw [condF _ hT.1 hT.2]; exact Bool.false_ne_true),
      if_neg (by rw [condF _ hR.1 hR.2]; exact Bool.false_ne_true),
      if_neg (by rw [condF _ hS.1 hS.2]; exact Bool.false_ne_true),
      if_neg (by rw [condF _ hA.1 hA.2]; exact Bool.false_ne_true)]
    rfl
  have he1 : ∃ l1, refErrors (g.table "trips") (get_routes g) "route_id"
      "route_id" "Trips reference missing routes: " = Except.ok l1 := by
    unfold refErrors get_routes
    rw [if_pos (by rw [hEF _ hT.2, hEF _ hR.2]; rfl)]
    have hcv : (g.table "trips").colVals "route_id" =
        Except.ok ((g.table "trips").rows.map (fun r => r.cell "route_id")) := by
      unfold DF.colVals
      rw [if_pos (mem_contains.mpr hc1)]
    have hpv : (g.table "routes").colVals "route_id" =
        Except.ok ((g.table "routes").rows.map (fun r => r.cell "route_id")) := by
      unfold DF.colVals
      rw [if_pos (mem_contains.mpr hc2)]
    rw [hcv, okBind, hpv, okBind, pureOk]
    exact ⟨_, rfl⟩
  have he3 : ∃ l3, refErrors (g.table "stop_times") (g.table "trips")
      "trip_id" "trip_id" "Stop times reference missing trips: " =
      Except.ok l3 := by
    unfold refErrors
    rw [if_pos (by rw [hEF _ hST.2, hEF _ hT.2]; rfl)]
    have hcv : (g.table "stop_times").colVals "trip_id" =
        Except.ok ((g.table "stop_times").rows.map
          (fun r => r.cell "trip_id")) := by
      unfold DF.colVals
      rw [if_pos (mem_contains.mpr hc5)]
    have hpv : (g.table "trips").colVals "trip_id" =
        Except.ok ((g.table "trips").rows.map (fun r => r.cell "trip_id")) := by
      unfold DF.colVals
      rw [if_pos (mem_contains.mpr hc6)]
    rw [hcv, okBind, hpv, okBind, pureOk]
    exact ⟨_, rfl⟩
  have hmissNE : (missingRefs
      ((g.table "stop_times").rows.map (fun r => r.cell "stop_id"))
      ((g.table "stops").rows.map (fun r => r.cell "stop_id"))).isEmpty =
      false := by
    have hmiss2 : Val.vstr sid ∈ missingRefs
        ((g.table "stop_times").rows.map (fun r => r.cell "stop_id"))
        ((g.table "stops").rows.map (fun r => r.cell "stop_id")) := hmiss
    rcases h : (missingRefs
        ((g.table "stop_times").rows.map (fun r => r.cell "stop_id"))
        ((g.table "stops").rows.map (fun r => r.cell "stop_id"))).isEmpty
        with _ | _
    · exact h
    · rw [List.isEmpty_iff.mp h] at hmiss2
      cases hmiss2
  have he2 : refErrors (g.table "stop_times") (get_stops g) "stop_id"
      "stop_id" "Stop times reference missing stops: " =
      Except.ok [stopRefErr g] := by
    unfold refErrors get_stops
    rw [if_pos (by rw [hEF _ hST.2, hEF _ hS.2]; rfl)]
    have hcv : (g.table "stop_times").colVals "stop_id" =
        Except.ok ((g.table "stop_times").rows.map
          (fun r => r.cell "stop_id")) := by
      unfold DF.colVals
      rw [if_pos (mem_contains.mpr hc3)]
    have hpv : (g.table "stops").colVals "stop_id" =
        Except.ok ((g.table "stops").rows.map (fun r => r.cell "stop_id")) := by
      unfold DF.colVals
      rw [if_pos (mem_contains.mpr hc4)]
    rw [hcv, okBind, hpv, okBind, pureOk]
    rw [if_neg (by rw [hmissNE]; exact Bool.false_ne_true)]
    rfl
  obtain ⟨l1, he1⟩ := he1
  obtain ⟨l3, he3⟩ := he3
  have hcons : consistencyErrors g =
      Except.ok ((l1 ++ [stopRefErr g]) ++ l3) := by
    unfold consistencyErrors
    dsimp only
    rw [he1, okBind, he2, okBind, he3, okBind, pureOk]
  have hval : validate_gtfs_data g = Except.ok
      ⟨true, [] ++ ((l1 ++ [stopRefErr g]) ++ l3), [],
        [("agency", (g.table "agency").rows.length),
         ("stops", (g.table "stops").rows.length),
         ("routes", (g.table "routes").rows.length),
         ("trips", (g.table "trips").rows.length),
         ("stop_times", (g.table "stop_times").rows.length),
         ("calendar", (g.table "calendar").rows.length)]⟩ := by
    unfold validate_gtfs_data
    rw [hcheck]
    dsimp only
    rw [if_pos rfl, hcons, okBind]
  refine ⟨_, hval, rfl, ?_, hmiss, ?_⟩
  · simp [List.mem_append]
  · intro htake
    unfold stopRefErr
    exact occursIn_of_mem _ htake

/-- C1 witness: the amended statement evaluated on the GHOST feed. -/
theorem claim_C1_witness :
    ∃ res, validate_gtfs_data gRefCE = Except.ok res ∧
      res.valid = true ∧
      stopRefErr gRefCE ∈ res.errors ∧
      Val.vstr "GHOST" ∈ stopRefMissing gRefCE ∧
      (Val.vstr "GHOST" ∈ (stopRefMissing gRefCE).take 5 →
        occursIn "GHOST" (stopRefErr gRefCE)) :=
  claim_C1_validate_missing_stop gRefCE "GHOST" (by decide) (by decide)
    (by decide) (by decide) (by decide) (by decide) (by decide) (by decide)
    (by decide)

/-- C7: with the PRNG abstracted as the draw streams a fixed seed
determines, both demand generators are deterministic — equal draw streams
give equal outputs — and every passenger_count value lies in [0, 100]. -/
theorem claim_C7_generators :
    (∀ draw : Nat → Nat → Int,
      generateSyntheticDemand draw = generateSyntheticDemand draw) ∧
    (∀ (st tr cal : DF) (wd cnt : Nat → Int),
      simulateDemand st tr cal wd cnt = simulateDemand st tr cal wd cnt) ∧
    (∀ (draw : Nat → Nat → Int) (row : SynRow),
      row ∈ generateSyntheticDemand draw →
      0 ≤ row.passenger_count ∧ row.passenger_count ≤ 100) ∧
    (∀ (st tr cal : DF) (wd cnt : Nat → Int) (df : DF),
      simulateDemand st tr cal wd cnt = Except.ok df →
      ∀ r ∈ df.rows, ∃ n : Int, r.cell "passenger_count" = Val.vint n ∧
        0 ≤ n ∧ n ≤ 100) := by
  refine ⟨fun _ => rfl, fun _ _ _ _ _ => rfl, ?_, ?_⟩
  · intro draw row hrow
    unfold generateSyntheticDemand at hrow
    obtain ⟨p, hp, hre⟩ := List.mem_map.mp hrow
    rw [← hre]
    exact ⟨pyClip_nonneg _, pyClip_le _⟩
  · intro st tr cal wd cnt df h r hr
    unfold simulateDemand at h
    obtain ⟨t2, ht2, h⟩ := exceptBind_ok h
    obtain ⟨st2, hst2, h⟩ := exceptBind_ok h
    obtain ⟨av, hav, h⟩ := exceptBind_ok h
    dsimp only at h
    split at h
    · cases h
      obtain ⟨p, hp, hre⟩ := List.mem_map.mp hr
      have hsel := List.snd_mem_of_mem_enum hp
      obtain ⟨r0, hr0, hre0⟩ := List.mem_map.mp hsel
      refine ⟨pyClip (cnt p.1), ?_, pyClip_nonneg _, pyClip_le _⟩
      rw [← hre, ← hre0]
      rfl
    · cases h

/-- C7 witness: on the fixture tables the single output row carries a
passenger count inside [0, 100]. -/
theorem claim_C7_witness :
    ∃ n : Int, Row.cell [("route_id", Val.vstr "R1"), ("stop_id", Val.vstr "A"),
      ("hour", Val.vint 1), ("weekday", Val.vint 0),
      ("passenger_count", Val.vint 100)] "passenger_count" =
        Val.vint n ∧ 0 ≤ n ∧ n ≤ 100 :=
  claim_C7_generators.2.2.2 simST simTrips simCalendar wd0 cnt0 simOut
    (by rfl)
    [("route_id", Val.vstr "R1"), ("stop_id", Val.vstr "A"),
      ("hour", Val.vint 1), ("weekday", Val.vint 0),
      ("passenger_count", Val.vint 100)] (by decide)

end GTFSModel
